import Mathlib

/-!
Verification development for the ExpenseFlow analytics dashboard
(analytics orchestrator, analytics API module, analytics renderers and
analytics utils). JavaScript values are shallowly embedded as an inductive
type; numbers are rationals with an extra NaN point; thrown JavaScript
errors are modelled with the Except monad; the DOM is a map from container
ids to optional region contents (absent containers map to none).
-/

namespace ExpenseFlow

/-- A JavaScript value as it flows through the analytics dashboard:
null, undefined, booleans, numbers (none standing for NaN), strings,
arrays and plain objects. -/
inductive JSVal where
  | null
  | undefined
  | bool (b : Bool)
  | num (n : Option ℚ)
  | str (s : String)
  | arr (elems : List JSVal)
  | obj (fields : List (String × JSVal))
deriving Repr

/-- Errors thrown by the dashboard code: runtime TypeErrors and
explicitly constructed Error objects carrying a message. -/
inductive JSError where
  | typeError (msg : String)
  | error (msg : String)
deriving Repr, DecidableEq

/-- JavaScript truthiness: null, undefined, false, NaN, 0 and the empty
string are falsy; arrays and objects are always truthy. -/
def truthy : JSVal → Bool
  | .null => false
  | .undefined => false
  | .bool b => b
  | .num none => false
  | .num (some q) => decide (q ≠ 0)
  | .str s => decide (s ≠ "")
  | .arr _ => true
  | .obj _ => true

/-- Object.keys as used inside isValidData: own enumerable keys of an
object, the character indices of a string, and no keys for the remaining
primitives. In isValidData it is only reached on truthy values, so the
throwing cases for null and undefined are never taken. -/
def jsKeys : JSVal → List String
  | .obj fields => fields.map Prod.fst
  | .str s => (List.range s.length).map toString
  | _ => []

/-- isValidData from analytics-utils: data is truthy and, when it is an
array, non-empty, otherwise it has at least one key. The JavaScript
expression short-circuits to the falsy data value itself on null and
undefined; every caller consumes it as a boolean, which is the value
modelled here. -/
def isValidData (data : JSVal) : Bool :=
  truthy data &&
    (match data with
     | .arr l => decide (0 < l.length)
     | _ => decide (0 < (jsKeys data).length))

/-- Property access v.k: throws a TypeError on null and undefined,
looks the key up on objects (missing keys give undefined), and gives
undefined on the remaining values. -/
def getField : JSVal → String → Except JSError JSVal
  | .null, _ => .error (.typeError "Cannot read properties of null")
  | .undefined, _ => .error (.typeError "Cannot read properties of undefined")
  | .obj fields, k => .ok ((fields.lookup k).getD .undefined)
  | _, _ => .ok .undefined

/-- Optional chaining v?.k: null and undefined give undefined instead of
throwing; otherwise as plain property access. -/
def getFieldOpt (v : JSVal) (k : String) : JSVal :=
  match v with
  | .null => .undefined
  | .undefined => .undefined
  | .obj fields => (fields.lookup k).getD .undefined
  | _ => .undefined

/-- ToNumber coercion for the arithmetic the velocity widget performs.
Numeric-string and array coercions are collapsed to NaN: no dashboard
arithmetic path feeds strings or arrays into arithmetic. -/
def toNumber : JSVal → Option ℚ
  | .null => some 0
  | .undefined => none
  | .bool b => some (if b then 1 else 0)
  | .num n => n
  | .str _ => none
  | .arr _ => none
  | .obj _ => none

/-- Division on NaN-extended rationals. Division by zero (Infinity in
JavaScript) is collapsed to NaN; the only divisor in the dashboard is the
constant 30. -/
def jsDiv (a b : Option ℚ) : Option ℚ :=
  match a, b with
  | some x, some y => if y = 0 then none else some (x / y)
  | _, _ => none

/-- Multiplication on NaN-extended rationals; NaN propagates. -/
def jsMul (a b : Option ℚ) : Option ℚ :=
  match a, b with
  | some x, some y => some (x * y)
  | _, _ => none

/-- Math.min on NaN-extended rationals; Math.min with a NaN argument
returns NaN. -/
def mathMin (a b : Option ℚ) : Option ℚ :=
  match a, b with
  | some x, some y => some (min x y)
  | _, _ => none

/-- str.charAt(i): the one-character string at index i, or the empty
string out of range. -/
def charAt (s : String) (i : ℕ) : String :=
  match s.data.drop i with
  | [] => ""
  | c :: _ => String.mk [c]

/-- str.toUpperCase, at the character granularity of Char.toUpper. -/
def jsToUpperCase (s : String) : String :=
  String.mk (s.data.map Char.toUpper)

/-- str.slice(i) for a non-negative index. -/
def jsSlice (s : String) (i : ℕ) : String :=
  String.mk (s.data.drop i)

/-- capitalizeFirst from analytics-utils:
str.charAt(0).toUpperCase() + str.slice(1). -/
def capitalizeFirst (s : String) : String :=
  jsToUpperCase (charAt s 0) ++ jsSlice s 1

/-- capitalizeFirst applied to an arbitrary JavaScript value: any
non-string receiver has no charAt method (or is null or undefined), so
the call throws a TypeError. -/
def capitalizeFirstJS : JSVal → Except JSError String
  | .str s => .ok (capitalizeFirst s)
  | _ => .error (.typeError "charAt is not a function")

/-- getCategoryColors from analytics-utils: the static color table. -/
def getCategoryColors : List (String × String) :=
  [("food", "#FF6B6B"),
   ("transport", "#4ECDC4"),
   ("entertainment", "#96CEB4"),
   ("utilities", "#FECA57"),
   ("healthcare", "#FF9FF3"),
   ("shopping", "#45B7D1"),
   ("other", "#A55EEA")]

/-- getCategoryIcons from analytics-utils: the static icon table. -/
def getCategoryIcons : List (String × String) :=
  [("food", "🍽️"),
   ("transport", "🚗"),
   ("entertainment", "🎬"),
   ("utilities", "💡"),
   ("healthcare", "🏥"),
   ("shopping", "🛒"),
   ("other", "📋")]

/-- The color lookup as the category renderer performs it:
categoryColors[category] with the fallback to the default color. -/
def categoryColor (c : String) : String :=
  (getCategoryColors.lookup c).getD "#999"

/-- The icon lookup as the category renderer performs it:
categoryIcons[category] with the fallback to the default icon. -/
def categoryIcon (c : String) : String :=
  (getCategoryIcons.lookup c).getD "📋"

/-- Indexing the color table with an arbitrary JavaScript value: only a
string key can hit the table, anything else falls through to the
default. -/
def categoryColorOf (v : JSVal) : String :=
  match v with
  | .str s => categoryColor s
  | _ => "#999"

/-- Indexing the icon table with an arbitrary JavaScript value. -/
def categoryIconOf (v : JSVal) : String :=
  match v with
  | .str s => categoryIcon s
  | _ => "📋"

/-- The innerHTML a dashboard container can end up holding, at the
granularity the renderers produce it: the loading spinner written by
showLoadingState, an error-state block, a static no-data placeholder,
or the widget structure built from the payload fields. -/
inductive Content where
  | empty
  | loading
  | errorState (msg : String)
  | noData (msg : String)
  | trendsChart (labels : List JSVal) (values : List JSVal)
  | velocityWidget (dayOfMonth currentSpent dailyAverage projectedMonthEnd daysRemaining : JSVal)
      (progressPercent : Option ℚ)
  | categoryChart (grandTotal : JSVal) (labels : List String) (values : List JSVal)
      (colors : List String)
  | insightsWidget (items : List (JSVal × JSVal × Option JSVal))
  | predictionsWidget (items : List (String × JSVal × JSVal))
  | forecastWidget (threeMonthProjection sixMonthProjection savingsPotential : JSVal)
deriving Repr

/-- The page, as the dashboard sees it through getElementById: a map
from container id to the content it holds, none when the container does
not exist in the document. -/
abbrev Dom := String → Option Content

/-- Assign container.innerHTML, guarded by the existence check every
dashboard function performs: writing to an absent container is a no-op. -/
def setRegion (dom : Dom) (id : String) (c : Content) : Dom :=
  fun k => if k = id then (dom k).map (fun _ => c) else dom k

/-- The shared shape of every renderer: resolve the container by id and
return early when it is absent, otherwise evaluate the content and
write it; an exception while building the content propagates. -/
def writeRendered (dom : Dom) (id : String) (content : Except JSError Content) :
    Except JSError Dom :=
  match dom id with
  | none => .ok dom
  | some _ => content.map (setRegion dom id)

/-- arr.map(e => e.k): maps property access over an array; any value
without a map method makes the call throw a TypeError. -/
def jsMapField (v : JSVal) (k : String) : Except JSError (List JSVal) :=
  match v with
  | .arr elems => elems.mapM (fun e => getField e k)
  | _ => .error (.typeError "map is not a function")

/-- The elements of an array value; non-arrays have no map method. -/
def jsElems (v : JSVal) : Except JSError (List JSVal) :=
  match v with
  | .arr elems => .ok elems
  | _ => .error (.typeError "map is not a function")

/-- The content renderTrendsChart builds: the no-data placeholder when
the payload is not presentable, otherwise the line chart with one label
and one value per entry. -/
def renderTrendsChartContent (trends : JSVal) : Except JSError Content :=
  if !isValidData trends then
    .ok (.noData "No trend data available")
  else do
    let labels ← jsMapField trends "month"
    let values ← jsMapField trends "amount"
    .ok (.trendsChart labels values)

/-- renderTrendsChart from analytics-renderers, as a DOM transformer on
the trends-chart container. -/
def renderTrendsChart (dom : Dom) (trends : JSVal) : Except JSError Dom :=
  writeRendered dom "trends-chart" (renderTrendsChartContent trends)

/-- The progress computation of the velocity widget:
Math.min(100, (velocity.dayOfMonth / 30) * 100). -/
def velocityProgressPercent (dayOfMonth : JSVal) : Option ℚ :=
  mathMin (some 100) (jsMul (jsDiv (toNumber dayOfMonth) (some 30)) (some 100))

/-- The content renderVelocityWidget builds. It performs no isValidData
check: it reads the payload fields directly and builds the widget. -/
def renderVelocityWidgetContent (velocity : JSVal) : Except JSError Content := do
  let dayOfMonth ← getField velocity "dayOfMonth"
  let currentSpent ← getField velocity "currentSpent"
  let dailyAverage ← getField velocity "dailyAverage"
  let projectedMonthEnd ← getField velocity "projectedMonthEnd"
  let daysRemaining ← getField velocity "daysRemaining"
  .ok (.velocityWidget dayOfMonth currentSpent dailyAverage projectedMonthEnd daysRemaining
    (velocityProgressPercent dayOfMonth))

/-- renderVelocityWidget from analytics-renderers. -/
def renderVelocityWidget (dom : Dom) (velocity : JSVal) : Except JSError Dom :=
  writeRendered dom "velocity-widget" (renderVelocityWidgetContent velocity)

/-- The content renderCategoryChart builds: the presentability check is
applied to the nested category list (breakdown?.categories); on success
the grand total header, then one label, one value and one color per
category. -/
def renderCategoryChartContent (breakdown : JSVal) : Except JSError Content :=
  if !isValidData (getFieldOpt breakdown "categories") then
    .ok (.noData "No expense data available")
  else do
    let grandTotal ← getField breakdown "grandTotal"
    let categories ← jsElems (getFieldOpt breakdown "categories")
    let labels ← categories.mapM (fun cat => do
      let c ← getField cat "category"
      let name ← capitalizeFirstJS c
      pure (categoryIconOf c ++ " " ++ name))
    let values ← categories.mapM (fun cat => getField cat "total")
    let colors ← categories.mapM (fun cat => do
      let c ← getField cat "category"
      pure (categoryColorOf c))
    .ok (.categoryChart grandTotal labels values colors)

/-- renderCategoryChart from analytics-renderers. -/
def renderCategoryChart (dom : Dom) (breakdown : JSVal) : Except JSError Dom :=
  writeRendered dom "category-chart" (renderCategoryChartContent breakdown)

/-- The content renderInsightsWidget builds: one item per insight with
title, description, and the suggestion when it is truthy. -/
def renderInsightsWidgetContent (insights : JSVal) : Except JSError Content :=
  if !isValidData insights then
    .ok (.noData "No insights available")
  else do
    let elems ← jsElems insights
    let items ← elems.mapM (fun insight => do
      let title ← getField insight "title"
      let description ← getField insight "description"
      let suggestion ← getField insight "suggestion"
      pure (title, description, if truthy suggestion then some suggestion else none))
    .ok (.insightsWidget items)

/-- renderInsightsWidget from analytics-renderers. -/
def renderInsightsWidget (dom : Dom) (insights : JSVal) : Except JSError Dom :=
  writeRendered dom "insights-widget" (renderInsightsWidgetContent insights)

/-- The content renderPredictionsWidget builds: one item per prediction
with the capitalized category, the confidence and the predicted
amount. -/
def renderPredictionsWidgetContent (predictions : JSVal) : Except JSError Content :=
  if !isValidData predictions then
    .ok (.noData "No predictions available")
  else do
    let elems ← jsElems predictions
    let items ← elems.mapM (fun prediction => do
      let category ← getField prediction "category"
      let name ← capitalizeFirstJS category
      let confidence ← getField prediction "confidence"
      let predictedAmount ← getField prediction "predictedAmount"
      pure (name, confidence, predictedAmount))
    .ok (.predictionsWidget items)

/-- renderPredictionsWidget from analytics-renderers. -/
def renderPredictionsWidget (dom : Dom) (predictions : JSVal) : Except JSError Dom :=
  writeRendered dom "predictions-widget" (renderPredictionsWidgetContent predictions)

/-- The content renderForecastWidget builds: the three fixed numeric
projections. -/
def renderForecastWidgetContent (forecast : JSVal) : Except JSError Content :=
  if !isValidData forecast then
    .ok (.noData "No forecast data available")
  else do
    let threeMonthProjection ← getField forecast "threeMonthProjection"
    let sixMonthProjection ← getField forecast "sixMonthProjection"
    let savingsPotential ← getField forecast "savingsPotential"
    .ok (.forecastWidget threeMonthProjection sixMonthProjection savingsPotential)

/-- renderForecastWidget from analytics-renderers. -/
def renderForecastWidget (dom : Dom) (forecast : JSVal) : Except JSError Dom :=
  writeRendered dom "forecast-widget" (renderForecastWidgetContent forecast)

/-- The six analytical views, in the order loadAllAnalytics launches
them. -/
inductive Widget where
  | trends
  | category
  | insights
  | predictions
  | velocity
  | forecast
deriving DecidableEq, Repr

/-- The output container of each widget. -/
def regionId : Widget → String
  | .trends => "trends-chart"
  | .category => "category-chart"
  | .insights => "insights-widget"
  | .predictions => "predictions-widget"
  | .velocity => "velocity-widget"
  | .forecast => "forecast-widget"

/-- The widget-scoped error message each load function passes to
showChartError or showWidgetError when its task fails. -/
def errorMessage : Widget → String
  | .trends => "Failed to load spending trends"
  | .category => "Failed to load category breakdown"
  | .insights => "Failed to load insights"
  | .predictions => "Failed to load predictions"
  | .velocity => "Failed to load velocity data"
  | .forecast => "Failed to load forecast data"

/-- The AnalyticsDashboard instance state: the reentrancy flag, the
current trends configuration, and the page it renders into. -/
structure CtrlState where
  isLoading : Bool
  currentPeriod : String
  currentMonths : ℕ
  dom : Dom

/-- showChartError: write the error-state block into the container when
it exists. -/
def showChartError (dom : Dom) (containerId message : String) : Dom :=
  setRegion dom containerId (.errorState message)

/-- showWidgetError: identical to showChartError. -/
def showWidgetError (dom : Dom) (containerId message : String) : Dom :=
  setRegion dom containerId (.errorState message)

/-- The container list showLoadingState iterates. -/
def analyticsContainers : List String :=
  ["trends-chart", "category-chart", "insights-widget",
   "predictions-widget", "velocity-widget", "forecast-widget"]

/-- showLoadingState: write the loading spinner into every existing
container of the list. -/
def showLoadingState (dom : Dom) : Dom :=
  analyticsContainers.foldl (fun d id => setRegion d id .loading) dom

/-- loadTrendsData with the fetch outcome supplied by the environment:
on success the trends renderer runs; any exception from the fetch or
the renderer is caught and turned into the chart error display. -/
def loadTrendsData (fetchResult : Except JSError JSVal) (dom : Dom) : Dom :=
  match fetchResult >>= renderTrendsChart dom with
  | .ok d => d
  | .error _ => showChartError dom "trends-chart" "Failed to load spending trends"

/-- loadCategoryData with the fetch outcome supplied by the
environment. -/
def loadCategoryData (fetchResult : Except JSError JSVal) (dom : Dom) : Dom :=
  match fetchResult >>= renderCategoryChart dom with
  | .ok d => d
  | .error _ => showChartError dom "category-chart" "Failed to load category breakdown"

/-- loadInsightsData with the fetch outcome supplied by the
environment. -/
def loadInsightsData (fetchResult : Except JSError JSVal) (dom : Dom) : Dom :=
  match fetchResult >>= renderInsightsWidget dom with
  | .ok d => d
  | .error _ => showWidgetError dom "insights-widget" "Failed to load insights"

/-- loadPredictionsData with the fetch outcome supplied by the
environment. -/
def loadPredictionsData (fetchResult : Except JSError JSVal) (dom : Dom) : Dom :=
  match fetchResult >>= renderPredictionsWidget dom with
  | .ok d => d
  | .error _ => showWidgetError dom "predictions-widget" "Failed to load predictions"

/-- loadVelocityData with the fetch outcome supplied by the
environment. -/
def loadVelocityData (fetchResult : Except JSError JSVal) (dom : Dom) : Dom :=
  match fetchResult >>= renderVelocityWidget dom with
  | .ok d => d
  | .error _ => showWidgetError dom "velocity-widget" "Failed to load velocity data"

/-- loadForecastData with the fetch outcome supplied by the
environment. -/
def loadForecastData (fetchResult : Except JSError JSVal) (dom : Dom) : Dom :=
  match fetchResult >>= renderForecastWidget dom with
  | .ok d => d
  | .error _ => showWidgetError dom "forecast-widget" "Failed to load forecast data"

/-- Dispatch from a widget to its load function. -/
def widgetLoader : Widget → Except JSError JSVal → Dom → Dom
  | .trends => loadTrendsData
  | .category => loadCategoryData
  | .insights => loadInsightsData
  | .predictions => loadPredictionsData
  | .velocity => loadVelocityData
  | .forecast => loadForecastData

/-- The fixed order in which loadAllAnalytics builds its promise
array. -/
def fanoutOrder : List Widget :=
  [.trends, .category, .insights, .predictions, .velocity, .forecast]

/-- loadAllAnalytics with each task's fetch outcome supplied by the
environment. If a refresh is already in flight it returns immediately
with no fetches launched. Otherwise it sets the flag, writes the
loading placeholders, runs the six tasks with settle semantics (each
task catches its own failure), and finally clears the flag. Each task
only writes its own container, so the fixed linearization used here is
observationally equal to any completion order. Also returned is the
list of fetch operations launched, in launch order. -/
def loadAllAnalytics (outcomes : Widget → Except JSError JSVal) (s : CtrlState) :
    CtrlState × List Widget :=
  if s.isLoading then (s, [])
  else
    let dom0 := showLoadingState s.dom
    let dom1 := fanoutOrder.foldl (fun d w => widgetLoader w (outcomes w) d) dom0
    ({ s with isLoading := false, dom := dom1 }, fanoutOrder)

/-- An HTTP response as apiFetch consumes it: the ok flag, the status
line, and the parsed JSON body. -/
structure HttpResponse where
  ok : Bool
  status : ℕ
  statusText : String
  body : JSVal

/-- The environment apiFetch runs against: the credential store entry
for authToken and the network, as a map from endpoint to response. -/
structure ApiEnv where
  authToken : Option String
  net : String → HttpResponse

/-- The Error apiFetch throws when the credential store holds no
token. -/
def AuthError : JSError := .error "No authentication token found"

/-- apiFetch from the analytics API module: with no stored token it
throws before touching the network; a non-ok response becomes an Error
carrying the status; on success the data envelope is unwrapped. The
first component lists the network requests performed. -/
def apiFetch (env : ApiEnv) (endpoint : String) :
    List String × Except JSError JSVal :=
  match env.authToken with
  | none => ([], .error AuthError)
  | some _ =>
    let response := env.net endpoint
    if !response.ok then
      ([endpoint],
       .error (.error ("API request failed: " ++ toString response.status ++ " "
         ++ response.statusText)))
    else
      ([endpoint], getField response.body "data")

/-- The module-level analyticsData cache: one slot per view, initialized
to null and assigned on each successful fetch. -/
structure AnalyticsData where
  trends : JSVal
  categoryBreakdown : JSVal
  insights : JSVal
  predictions : JSVal
  velocity : JSVal
  forecast : JSVal

/-- The initial analyticsData value: every slot null. -/
def initialAnalyticsData : AnalyticsData :=
  ⟨.null, .null, .null, .null, .null, .null⟩

/-- clearAnalyticsData: reset every slot to null. -/
def clearAnalyticsData : AnalyticsData := initialAnalyticsData

/-- Read the cache slot of a view. -/
def slotOf (snap : AnalyticsData) : Widget → JSVal
  | .trends => snap.trends
  | .category => snap.categoryBreakdown
  | .insights => snap.insights
  | .predictions => snap.predictions
  | .velocity => snap.velocity
  | .forecast => snap.forecast

/-- fetchSpendingTrends: request the trends endpoint, store the payload
in the trends slot on success, and return it. A failure propagates and
leaves the cache untouched. -/
def fetchSpendingTrends (env : ApiEnv) (snap : AnalyticsData)
    (period : String) (months : ℕ) :
    List String × AnalyticsData × Except JSError JSVal :=
  match apiFetch env ("/spending-trends?period=" ++ period ++ "&months=" ++ toString months) with
  | (reqs, .error e) => (reqs, snap, .error e)
  | (reqs, .ok data) => (reqs, { snap with trends := data }, .ok data)

/-- fetchCategoryBreakdown, with its optional date-range parameters. -/
def fetchCategoryBreakdown (env : ApiEnv) (snap : AnalyticsData)
    (type : String) (startDate endDate : Option String) :
    List String × AnalyticsData × Except JSError JSVal :=
  let url := "/category-breakdown?type=" ++ type
  let url := match startDate with
    | some s => url ++ "&startDate=" ++ s
    | none => url
  let url := match endDate with
    | some s => url ++ "&endDate=" ++ s
    | none => url
  match apiFetch env url with
  | (reqs, .error e) => (reqs, snap, .error e)
  | (reqs, .ok data) => (reqs, { snap with categoryBreakdown := data }, .ok data)

/-- fetchInsights. -/
def fetchInsights (env : ApiEnv) (snap : AnalyticsData) :
    List String × AnalyticsData × Except JSError JSVal :=
  match apiFetch env "/insights" with
  | (reqs, .error e) => (reqs, snap, .error e)
  | (reqs, .ok data) => (reqs, { snap with insights := data }, .ok data)

/-- fetchPredictions. -/
def fetchPredictions (env : ApiEnv) (snap : AnalyticsData) :
    List String × AnalyticsData × Except JSError JSVal :=
  match apiFetch env "/predictions" with
  | (reqs, .error e) => (reqs, snap, .error e)
  | (reqs, .ok data) => (reqs, { snap with predictions := data }, .ok data)

/-- fetchSpendingVelocity. -/
def fetchSpendingVelocity (env : ApiEnv) (snap : AnalyticsData) :
    List String × AnalyticsData × Except JSError JSVal :=
  match apiFetch env "/velocity" with
  | (reqs, .error e) => (reqs, snap, .error e)
  | (reqs, .ok data) => (reqs, { snap with velocity := data }, .ok data)

/-- fetchForecast. -/
def fetchForecast (env : ApiEnv) (snap : AnalyticsData) :
    List String × AnalyticsData × Except JSError JSVal :=
  match apiFetch env "/forecast" with
  | (reqs, .error e) => (reqs, snap, .error e)
  | (reqs, .ok data) => (reqs, { snap with forecast := data }, .ok data)

/-- The fetch operation of each view, with the arguments the dashboard
passes (the trends fetch takes the current period and month window; the
category fetch uses its defaults). -/
def fetchOperation (w : Widget) (env : ApiEnv) (period : String) (months : ℕ)
    (snap : AnalyticsData) : List String × AnalyticsData × Except JSError JSVal :=
  match w with
  | .trends => fetchSpendingTrends env snap period months
  | .category => fetchCategoryBreakdown env snap "expense" none none
  | .insights => fetchInsights env snap
  | .predictions => fetchPredictions env snap
  | .velocity => fetchSpendingVelocity env snap
  | .forecast => fetchForecast env snap

/-- The generic shape shared by all six load functions: run the fetch
outcome through the renderer of one container; on any exception, write
the widget-scoped error message into that container. -/
def runTask (id msg : String) (contentOf : JSVal → Except JSError Content)
    (r : Except JSError JSVal) (dom : Dom) : Dom :=
  match r >>= (fun p => writeRendered dom id (contentOf p)) with
  | .ok d => d
  | .error _ => setRegion dom id (.errorState msg)

/-- What one task leaves in its own container, as a function of the
fetch outcome and the prior content: nothing when the container is
absent, the rendered content on success, and the error display when the
fetch or the renderer threw. -/
def taskRegionResult (msg : String) (contentOf : JSVal → Except JSError Content)
    (r : Except JSError JSVal) (cur : Option Content) : Option Content :=
  match cur with
  | none => none
  | some _ =>
    match r >>= contentOf with
    | .ok c => some c
    | .error _ => some (.errorState msg)

/-- The content builder of each widget. -/
def widgetContent : Widget → JSVal → Except JSError Content
  | .trends => renderTrendsChartContent
  | .category => renderCategoryChartContent
  | .insights => renderInsightsWidgetContent
  | .predictions => renderPredictionsWidgetContent
  | .velocity => renderVelocityWidgetContent
  | .forecast => renderForecastWidgetContent

theorem setRegion_ne (dom : Dom) (id : String) (c : Content) (k : String)
    (hk : k ≠ id) : setRegion dom id c k = dom k := by
  simp [setRegion, hk]

theorem setRegion_self (dom : Dom) (id : String) (c : Content) :
    setRegion dom id c id = (dom id).map (fun _ => c) := by
  simp [setRegion]

theorem runTask_ne (id msg : String) (contentOf : JSVal → Except JSError Content)
    (r : Except JSError JSVal) (dom : Dom) (k : String) (hk : k ≠ id) :
    runTask id msg contentOf r dom k = dom k := by
  unfold runTask
  cases r with
  | error e =>
    simp only [Bind.bind, Except.bind]
    simp [setRegion_ne _ _ _ _ hk]
  | ok p =>
    simp only [Bind.bind, Except.bind]
    unfold writeRendered
    cases hdom : dom id with
    | none => simp
    | some c0 =>
      cases hc : contentOf p with
      | error e => simp [Except.map, setRegion_ne _ _ _ _ hk]
      | ok c => simp [Except.map, setRegion_ne _ _ _ _ hk]

theorem runTask_own (id msg : String) (contentOf : JSVal → Except JSError Content)
    (r : Except JSError JSVal) (dom : Dom) :
    runTask id msg contentOf r dom id = taskRegionResult msg contentOf r (dom id) := by
  unfold runTask taskRegionResult
  cases r with
  | error e =>
    simp only [Bind.bind, Except.bind]
    cases hdom : dom id with
    | none => simp [setRegion, hdom]
    | some c0 => simp [setRegion, hdom]
  | ok p =>
    simp only [Bind.bind, Except.bind]
    unfold writeRendered
    cases hdom : dom id with
    | none =>
      cases hc : contentOf p with
      | error e => simp [hc, hdom]
      | ok c => simp [hc, hdom]
    | some c0 =>
      cases hc : contentOf p with
      | error e => simp [hc, hdom, Except.map, setRegion]
      | ok c => simp [hc, hdom, Except.map, setRegion]

theorem widgetLoader_eq_runTask (w : Widget) (r : Except JSError JSVal) (dom : Dom) :
    widgetLoader w r dom = runTask (regionId w) (errorMessage w) (widgetContent w) r dom := by
  cases w <;> rfl

theorem regionId_injective : ∀ a b : Widget, regionId a = regionId b → a = b := by
  intro a b
  cases a <;> cases b <;> simp [regionId]

theorem foldTasks_notin (o : Widget → Except JSError JSVal) (ws : List Widget)
    (dom0 : Dom) (k : String) (hk : ∀ w ∈ ws, k ≠ regionId w) :
    (ws.foldl (fun d w => widgetLoader w (o w) d) dom0) k = dom0 k := by
  induction ws generalizing dom0 with
  | nil => rfl
  | cons a t ih =>
    simp only [List.foldl]
    rw [ih (widgetLoader a (o a) dom0) (fun w hw => hk w (List.mem_cons_of_mem a hw))]
    rw [widgetLoader_eq_runTask]
    exact runTask_ne _ _ _ _ _ _ (hk a (List.mem_cons_self a t))

theorem foldTasks_mem (o : Widget → Except JSError JSVal) (ws : List Widget)
    (dom0 : Dom) (w : Widget) (hw : w ∈ ws) (hnd : ws.Nodup) :
    (ws.foldl (fun d w => widgetLoader w (o w) d) dom0) (regionId w)
      = taskRegionResult (errorMessage w) (widgetContent w) (o w) (dom0 (regionId w)) := by
  induction ws generalizing dom0 with
  | nil => cases hw
  | cons a t ih =>
    simp only [List.foldl]
    rcases List.mem_cons.mp hw with rfl | hmem
    · have hnotin : ∀ w' ∈ t, regionId w ≠ regionId w' := by
        intro w' hw' heq
        exact (List.nodup_cons.mp hnd).1 (regionId_injective _ _ heq ▸ hw')
      rw [foldTasks_notin o t _ _ hnotin]
      rw [widgetLoader_eq_runTask, runTask_own]
    · rw [ih (widgetLoader a (o a) dom0) hmem (List.nodup_cons.mp hnd).2]
      have hne : regionId w ≠ regionId a := by
        intro heq
        exact (List.nodup_cons.mp hnd).1 (regionId_injective _ _ heq ▸ hmem)
      rw [widgetLoader_eq_runTask, runTask_ne _ _ _ _ _ _ hne]

theorem foldSpinner_notin (ids : List String) (dom : Dom) (k : String)
    (hk : k ∉ ids) :
    (ids.foldl (fun d id => setRegion d id .loading) dom) k = dom k := by
  induction ids generalizing dom with
  | nil => rfl
  | cons a t ih =>
    simp only [List.foldl]
    rw [ih (setRegion dom a .loading) (fun h => hk (List.mem_cons_of_mem a h))]
    exact setRegion_ne _ _ _ _ (fun h => hk (h ▸ List.mem_cons_self a t))

theorem foldSpinner_mem (ids : List String) (dom : Dom) (k : String)
    (hk : k ∈ ids) :
    (ids.foldl (fun d id => setRegion d id .loading) dom) k
      = (dom k).map (fun _ => .loading) := by
  induction ids generalizing dom with
  | nil => cases hk
  | cons a t ih =>
    simp only [List.foldl]
    by_cases hmem : k ∈ t
    · rw [ih (setRegion dom a .loading) hmem]
      by_cases hka : k = a
      · subst hka
        rw [setRegion_self, Option.map_map]
        rfl
      · rw [setRegion_ne _ _ _ _ hka]
    · have hka : k = a := by
        rcases List.mem_cons.mp hk with h | h
        · exact h
        · exact absurd h hmem
      subst hka
      rw [foldSpinner_notin t _ _ hmem, setRegion_self]

theorem showLoadingState_region (dom : Dom) (w : Widget) :
    showLoadingState dom (regionId w) = (dom (regionId w)).map (fun _ => .loading) := by
  unfold showLoadingState
  exact foldSpinner_mem analyticsContainers dom (regionId w) (by cases w <;> decide)

theorem loadAllAnalytics_guard (o : Widget → Except JSError JSVal) (s : CtrlState)
    (h : s.isLoading = true) : loadAllAnalytics o s = (s, []) := by
  simp [loadAllAnalytics, h]

theorem loadAllAnalytics_run (o : Widget → Except JSError JSVal) (s : CtrlState)
    (h : s.isLoading = false) :
    loadAllAnalytics o s =
      ({ s with
          isLoading := false
          dom := fanoutOrder.foldl (fun d w => widgetLoader w (o w) d)
            (showLoadingState s.dom) },
       fanoutOrder) := by
  simp [loadAllAnalytics, h]

theorem loadAllAnalytics_region (o : Widget → Except JSError JSVal) (s : CtrlState)
    (h : s.isLoading = false) (w : Widget) :
    (loadAllAnalytics o s).1.dom (regionId w)
      = taskRegionResult (errorMessage w) (widgetContent w) (o w)
          ((s.dom (regionId w)).map (fun _ => .loading)) := by
  rw [loadAllAnalytics_run o s h]
  simp only
  rw [foldTasks_mem o fanoutOrder _ w (by cases w <;> decide) (by decide)]
  rw [showLoadingState_region]

theorem bind_ok_inv {α β : Type} (x : Except JSError α) (f : α → Except JSError β)
    (b : β) (h : (x >>= f) = .ok b) : ∃ a, x = .ok a ∧ f a = .ok b := by
  cases x with
  | error e => simp [Bind.bind, Except.bind] at h
  | ok a => exact ⟨a, rfl, by simpa [Bind.bind, Except.bind] using h⟩

theorem renderTrendsChartContent_ok_shape (p : JSVal) (c : Content)
    (h : renderTrendsChartContent p = .ok c) : c ≠ .loading := by
  unfold renderTrendsChartContent at h
  split at h
  · injection h with h1
    subst h1
    exact fun hh => nomatch hh
  · obtain ⟨l, _, h⟩ := bind_ok_inv _ _ _ h
    obtain ⟨v, _, h⟩ := bind_ok_inv _ _ _ h
    injection h with h1
    subst h1
    exact fun hh => nomatch hh

theorem renderVelocityWidgetContent_ok_shape (p : JSVal) (c : Content)
    (h : renderVelocityWidgetContent p = .ok c) : c ≠ .loading := by
  unfold renderVelocityWidgetContent at h
  obtain ⟨d, _, h⟩ := bind_ok_inv _ _ _ h
  obtain ⟨cs, _, h⟩ := bind_ok_inv _ _ _ h
  obtain ⟨da, _, h⟩ := bind_ok_inv _ _ _ h
  obtain ⟨pm, _, h⟩ := bind_ok_inv _ _ _ h
  obtain ⟨dr, _, h⟩ := bind_ok_inv _ _ _ h
  injection h with h1
  subst h1
  exact fun hh => nomatch hh

theorem renderCategoryChartContent_ok_shape (p : JSVal) (c : Content)
    (h : renderCategoryChartContent p = .ok c) : c ≠ .loading := by
  unfold renderCategoryChartContent at h
  split at h
  · injection h with h1
    subst h1
    exact fun hh => nomatch hh
  · obtain ⟨g, _, h⟩ := bind_ok_inv _ _ _ h
    obtain ⟨cats, _, h⟩ := bind_ok_inv _ _ _ h
    obtain ⟨ls, _, h⟩ := bind_ok_inv _ _ _ h
    obtain ⟨vs, _, h⟩ := bind_ok_inv _ _ _ h
    obtain ⟨colors, _, h⟩ := bind_ok_inv _ _ _ h
    injection h with h1
    subst h1
    exact fun hh => nomatch hh

theorem renderInsightsWidgetContent_ok_shape (p : JSVal) (c : Content)
    (h : renderInsightsWidgetContent p = .ok c) : c ≠ .loading := by
  unfold renderInsightsWidgetContent at h
  split at h
  · injection h with h1
    subst h1
    exact fun hh => nomatch hh
  · obtain ⟨es, _, h⟩ := bind_ok_inv _ _ _ h
    obtain ⟨items, _, h⟩ := bind_ok_inv _ _ _ h
    injection h with h1
    subst h1
    exact fun hh => nomatch hh

theorem renderPredictionsWidgetContent_ok_shape (p : JSVal) (c : Content)
    (h : renderPredictionsWidgetContent p = .ok c) : c ≠ .loading := by
  unfold renderPredictionsWidgetContent at h
  split at h
  · injection h with h1
    subst h1
    exact fun hh => nomatch hh
  · obtain ⟨es, _, h⟩ := bind_ok_inv _ _ _ h
    obtain ⟨items, _, h⟩ := bind_ok_inv _ _ _ h
    injection h with h1
    subst h1
    exact fun hh => nomatch hh

theorem renderForecastWidgetContent_ok_shape (p : JSVal) (c : Content)
    (h : renderForecastWidgetContent p = .ok c) : c ≠ .loading := by
  unfold renderForecastWidgetContent at h
  split at h
  · injection h with h1
    subst h1
    exact fun hh => nomatch hh
  · obtain ⟨a, _, h⟩ := bind_ok_inv _ _ _ h
    obtain ⟨b, _, h⟩ := bind_ok_inv _ _ _ h
    obtain ⟨d, _, h⟩ := bind_ok_inv _ _ _ h
    injection h with h1
    subst h1
    exact fun hh => nomatch hh

theorem widgetContent_ne_loading (w : Widget) (p : JSVal) (c : Content)
    (h : widgetContent w p = .ok c) : c ≠ .loading := by
  cases w
  case trends => exact renderTrendsChartContent_ok_shape p c h
  case category => exact renderCategoryChartContent_ok_shape p c h
  case insights => exact renderInsightsWidgetContent_ok_shape p c h
  case predictions => exact renderPredictionsWidgetContent_ok_shape p c h
  case velocity => exact renderVelocityWidgetContent_ok_shape p c h
  case forecast => exact renderForecastWidgetContent_ok_shape p c h

theorem taskRegionResult_ne_loading (msg : String)
    (contentOf : JSVal → Except JSError Content) (r : Except JSError JSVal)
    (cur : Option Content) (hc : ∀ p c, contentOf p = .ok c → c ≠ .loading) :
    taskRegionResult msg contentOf r cur ≠ some .loading := by
  unfold taskRegionResult
  cases cur with
  | none => simp
  | some c0 =>
    cases r with
    | error e =>
      simp only [Bind.bind, Except.bind]
      intro hh
      injection hh with hh1
      exact nomatch hh1
    | ok p =>
      simp only [Bind.bind, Except.bind]
      cases hcp : contentOf p with
      | error e =>
        intro hh
        injection hh with hh1
        exact nomatch hh1
      | ok c =>
        intro hh
        injection hh with hh1
        exact hc p c hcp hh1

/-- A page on which every container exists, holding the initial markup. -/
def exDom : Dom := fun _ => some .empty

/-- A dashboard at rest. -/
def exState : CtrlState := ⟨false, "monthly", 6, exDom⟩

/-- A dashboard with a refresh already in flight. -/
def exLoadingState : CtrlState := ⟨true, "monthly", 6, exDom⟩

/-- A network in which the trends fetch fails and every other fetch
succeeds with a one-point series. -/
def exOutcomes : Widget → Except JSError JSVal
  | .trends => .error (.error "Network unreachable")
  | _ => .ok (.arr [.obj [("month", .str "Jan"), ("amount", .num (some 100))]])

/-- C1: for every one of the six widget tasks launched by a full
refresh, a rejected fetch leaves that task writing the widget-scoped
error message into its own output region (the load function catches the
exception, so nothing is rethrown), and the final content of every
other region is a function of that region's own outcome alone, so the
other five tasks run to their own success or failure unaffected. -/
theorem c1_fetch_failure_isolation (o : Widget → Except JSError JSVal)
    (s : CtrlState) (hs : s.isLoading = false) (w : Widget) (e : JSError)
    (ho : o w = .error e) (c0 : Content) (hp : s.dom (regionId w) = some c0) :
    (loadAllAnalytics o s).1.dom (regionId w)
      = some (.errorState (errorMessage w))
    ∧ ∀ o' : Widget → Except JSError JSVal,
        (∀ w', w' ≠ w → o' w' = o w') →
        ∀ w', w' ≠ w →
          (loadAllAnalytics o' s).1.dom (regionId w')
            = (loadAllAnalytics o s).1.dom (regionId w') := by
  constructor
  · rw [loadAllAnalytics_region o s hs w, hp]
    simp [taskRegionResult, ho, Bind.bind, Except.bind]
  · intro o' ho' w' hw'
    rw [loadAllAnalytics_region o s hs w', loadAllAnalytics_region o' s hs w',
      ho' w' hw']

/-- Witness for C1 at a concrete dashboard: the trends fetch rejects and
the trends region ends up with its error message. -/
theorem c1_fetch_failure_isolation_witness :
    exState.isLoading = false
    ∧ exOutcomes .trends = .error (.error "Network unreachable")
    ∧ (loadAllAnalytics exOutcomes exState).1.dom (regionId .trends)
        = some (.errorState "Failed to load spending trends") :=
  ⟨rfl, rfl,
    (c1_fetch_failure_isolation exOutcomes exState rfl .trends
      (.error "Network unreachable") rfl .empty rfl).1⟩

/-- C2: a full refresh invoked while a refresh is already in flight is a
no-op: the state (the loading flag and every region) is returned
unchanged and no fetch operations are launched. -/
theorem c2_reentrancy_guard (o : Widget → Except JSError JSVal) (s : CtrlState)
    (h : s.isLoading = true) :
    loadAllAnalytics o s = (s, [])
    ∧ (loadAllAnalytics o s).1.isLoading = true := by
  refine ⟨loadAllAnalytics_guard o s h, ?_⟩
  rw [loadAllAnalytics_guard o s h]
  exact h

/-- Witness for C2 at a concrete in-flight dashboard. -/
theorem c2_reentrancy_guard_witness :
    loadAllAnalytics exOutcomes exLoadingState = (exLoadingState, []) :=
  (c2_reentrancy_guard exOutcomes exLoadingState rfl).1

/-- C3: after a full refresh runs its six tasks to settlement the
controller is idle again regardless of how many tasks failed, no region
is left holding the loading spinner, and a subsequent full refresh is
accepted (it launches all six fetches). -/
theorem c3_settle_to_idle (o : Widget → Except JSError JSVal) (s : CtrlState)
    (h : s.isLoading = false) :
    (loadAllAnalytics o s).1.isLoading = false
    ∧ (∀ w : Widget, (loadAllAnalytics o s).1.dom (regionId w) ≠ some .loading)
    ∧ ∀ o' : Widget → Except JSError JSVal,
        (loadAllAnalytics o' (loadAllAnalytics o s).1).2 = fanoutOrder := by
  have h1 : (loadAllAnalytics o s).1.isLoading = false := by
    rw [loadAllAnalytics_run o s h]
  refine ⟨h1, ?_, ?_⟩
  · intro w
    rw [loadAllAnalytics_region o s h w]
    exact taskRegionResult_ne_loading _ _ _ _
      (fun p c hpc => widgetContent_ne_loading w p c hpc)
  · intro o'
    rw [loadAllAnalytics_run o' (loadAllAnalytics o s).1 h1]

/-- Witness for C3 at a concrete dashboard with one failed task. -/
theorem c3_settle_to_idle_witness :
    (loadAllAnalytics exOutcomes exState).1.isLoading = false
    ∧ (loadAllAnalytics exOutcomes exState).1.dom (regionId .trends)
        ≠ some .loading :=
  ⟨(c3_settle_to_idle exOutcomes exState rfl).1,
   (c3_settle_to_idle exOutcomes exState rfl).2.1 .trends⟩

/-- Counterexample to C4: the velocity renderer performs no
presentability check. The empty object is not presentable, yet
renderVelocityWidget builds the widget structure (with every stat
undefined and a NaN progress) instead of writing a no-data
placeholder and returning. -/
theorem c4_velocity_skips_presentability_check :
    isValidData (JSVal.obj []) = false
    ∧ renderVelocityWidgetContent (JSVal.obj [])
        = .ok (.velocityWidget .undefined .undefined .undefined .undefined
            .undefined none) :=
  ⟨rfl, rfl⟩

/-- C4 as amended: the trends, category-breakdown, insights,
predictions and forecast renderers first apply the presentability check
(for category breakdown, to the nested category list) and write their
static no-data placeholder when it fails; the velocity renderer
performs no such check and builds its widget directly from the payload
fields for every non-null, non-undefined payload. -/
theorem c4_presentability_gate_amended :
    (∀ p : JSVal, isValidData p = false →
        renderTrendsChartContent p = .ok (.noData "No trend data available"))
    ∧ (∀ p : JSVal, isValidData (getFieldOpt p "categories") = false →
        renderCategoryChartContent p = .ok (.noData "No expense data available"))
    ∧ (∀ p : JSVal, isValidData p = false →
        renderInsightsWidgetContent p = .ok (.noData "No insights available"))
    ∧ (∀ p : JSVal, isValidData p = false →
        renderPredictionsWidgetContent p = .ok (.noData "No predictions available"))
    ∧ (∀ p : JSVal, isValidData p = false →
        renderForecastWidgetContent p = .ok (.noData "No forecast data available"))
    ∧ ∀ v : JSVal, v ≠ .null → v ≠ .undefined →
        ∃ d cs da pm dr, renderVelocityWidgetContent v
          = .ok (.velocityWidget d cs da pm dr (velocityProgressPercent d)) := by
  refine ⟨?_, ?_, ?_, ?_, ?_, ?_⟩
  · intro p hp
    simp [renderTrendsChartContent, hp]
  · intro p hp
    simp [renderCategoryChartContent, hp]
  · intro p hp
    simp [renderInsightsWidgetContent, hp]
  · intro p hp
    simp [renderPredictionsWidgetContent, hp]
  · intro p hp
    simp [renderForecastWidgetContent, hp]
  · intro v hn hu
    cases v with
    | null => exact absurd rfl hn
    | undefined => exact absurd rfl hu
    | bool b => exact ⟨_, _, _, _, _, rfl⟩
    | num n => exact ⟨_, _, _, _, _, rfl⟩
    | str s => exact ⟨_, _, _, _, _, rfl⟩
    | arr l => exact ⟨_, _, _, _, _, rfl⟩
    | obj fs => exact ⟨_, _, _, _, _, rfl⟩

/-- Witness for the amended C4 at concrete non-presentable payloads. -/
theorem c4_presentability_gate_amended_witness :
    renderTrendsChartContent .null = .ok (.noData "No trend data available")
    ∧ renderCategoryChartContent (.obj []) = .ok (.noData "No expense data available")
    ∧ renderInsightsWidgetContent (.arr []) = .ok (.noData "No insights available")
    ∧ renderPredictionsWidgetContent .undefined = .ok (.noData "No predictions available")
    ∧ renderForecastWidgetContent .null = .ok (.noData "No forecast data available")
    ∧ ∃ d cs da pm dr, renderVelocityWidgetContent (.obj [])
        = .ok (.velocityWidget d cs da pm dr (velocityProgressPercent d)) :=
  ⟨c4_presentability_gate_amended.1 .null rfl,
   c4_presentability_gate_amended.2.1 (.obj []) rfl,
   c4_presentability_gate_amended.2.2.1 (.arr []) rfl,
   c4_presentability_gate_amended.2.2.2.1 .undefined rfl,
   c4_presentability_gate_amended.2.2.2.2.1 .null rfl,
   c4_presentability_gate_amended.2.2.2.2.2 (.obj [])
     (fun h => nomatch h) (fun h => nomatch h)⟩

/-- The shared post-processing of every fetch operation: on failure the
cache is untouched and the error propagates; on success the given slot
update is applied and the payload returned. -/
def fetchStep (snap : AnalyticsData) (update : JSVal → AnalyticsData)
    (r : List String × Except JSError JSVal) :
    List String × AnalyticsData × Except JSError JSVal :=
  match r with
  | (reqs, .error e) => (reqs, snap, .error e)
  | (reqs, .ok data) => (reqs, update data, .ok data)

theorem fetchStep_spec (snap : AnalyticsData) (update : JSVal → AnalyticsData)
    (r : List String × Except JSError JSVal) :
    (∀ e, (fetchStep snap update r).2.2 = .error e →
        (fetchStep snap update r).2.1 = snap)
    ∧ ∀ d, (fetchStep snap update r).2.2 = .ok d →
        (fetchStep snap update r).2.1 = update d := by
  rcases r with ⟨reqs, res⟩
  cases res with
  | error e => exact ⟨fun _ _ => rfl, fun d hd => nomatch hd⟩
  | ok d0 =>
    refine ⟨(fun e he => nomatch he), fun d hd => ?_⟩
    have hd0 : d0 = d := by injection hd
    subst hd0
    rfl

theorem fetchSpendingTrends_eq (env : ApiEnv) (snap : AnalyticsData)
    (period : String) (months : ℕ) :
    fetchSpendingTrends env snap period months
      = fetchStep snap (fun d => { snap with trends := d })
          (apiFetch env ("/spending-trends?period=" ++ period ++ "&months="
            ++ toString months)) := rfl

theorem fetchCategoryBreakdown_eq (env : ApiEnv) (snap : AnalyticsData)
    (type : String) (startDate endDate : Option String) :
    fetchCategoryBreakdown env snap type startDate endDate
      = fetchStep snap (fun d => { snap with categoryBreakdown := d })
          (apiFetch env
            (match endDate with
             | some s =>
                 (match startDate with
                  | some s0 => "/category-breakdown?type=" ++ type ++ "&startDate=" ++ s0
                  | none => "/category-breakdown?type=" ++ type) ++ "&endDate=" ++ s
             | none =>
                 match startDate with
                 | some s0 => "/category-breakdown?type=" ++ type ++ "&startDate=" ++ s0
                 | none => "/category-breakdown?type=" ++ type)) := by
  unfold fetchCategoryBreakdown
  cases startDate <;> cases endDate <;> rfl

theorem fetchInsights_eq (env : ApiEnv) (snap : AnalyticsData) :
    fetchInsights env snap
      = fetchStep snap (fun d => { snap with insights := d })
          (apiFetch env "/insights") := rfl

theorem fetchPredictions_eq (env : ApiEnv) (snap : AnalyticsData) :
    fetchPredictions env snap
      = fetchStep snap (fun d => { snap with predictions := d })
          (apiFetch env "/predictions") := rfl

theorem fetchSpendingVelocity_eq (env : ApiEnv) (snap : AnalyticsData) :
    fetchSpendingVelocity env snap
      = fetchStep snap (fun d => { snap with velocity := d })
          (apiFetch env "/velocity") := rfl

theorem fetchForecast_eq (env : ApiEnv) (snap : AnalyticsData) :
    fetchForecast env snap
      = fetchStep snap (fun d => { snap with forecast := d })
          (apiFetch env "/forecast") := rfl

/-- C5: for every analytical view, a failed fetch leaves the whole
analyticsData cache exactly as it was (last-good-value semantics), and
a successful fetch sets exactly that view's slot to the returned
payload while every other slot is unchanged. -/
theorem c5_slot_last_good_value (w : Widget) (env : ApiEnv) (period : String)
    (months : ℕ) (snap : AnalyticsData) :
    (∀ e : JSError, (fetchOperation w env period months snap).2.2 = .error e →
        (fetchOperation w env period months snap).2.1 = snap)
    ∧ ∀ d : JSVal, (fetchOperation w env period months snap).2.2 = .ok d →
        slotOf (fetchOperation w env period months snap).2.1 w = d
        ∧ ∀ w' : Widget, w' ≠ w →
            slotOf (fetchOperation w env period months snap).2.1 w'
              = slotOf snap w' := by
  cases w with
  | trends =>
    simp only [fetchOperation]
    rw [fetchSpendingTrends_eq]
    obtain ⟨herr, hok⟩ := fetchStep_spec snap (fun d => { snap with trends := d })
      (apiFetch env ("/spending-trends?period=" ++ period ++ "&months="
        ++ toString months))
    refine ⟨herr, fun d hd => ⟨?_, ?_⟩⟩
    · rw [hok d hd]
      rfl
    · intro w' hw'
      rw [hok d hd]
      cases w' <;> first | exact absurd rfl hw' | rfl
  | category =>
    simp only [fetchOperation]
    rw [fetchCategoryBreakdown_eq]
    obtain ⟨herr, hok⟩ := fetchStep_spec snap
      (fun d => { snap with categoryBreakdown := d })
      (apiFetch env ("/category-breakdown?type=" ++ "expense"))
    refine ⟨herr, fun d hd => ⟨?_, ?_⟩⟩
    · rw [hok d hd]
      rfl
    · intro w' hw'
      rw [hok d hd]
      cases w' <;> first | exact absurd rfl hw' | rfl
  | insights =>
    simp only [fetchOperation]
    rw [fetchInsights_eq]
    obtain ⟨herr, hok⟩ := fetchStep_spec snap (fun d => { snap with insights := d })
      (apiFetch env "/insights")
    refine ⟨herr, fun d hd => ⟨?_, ?_⟩⟩
    · rw [hok d hd]
      rfl
    · intro w' hw'
      rw [hok d hd]
      cases w' <;> first | exact absurd rfl hw' | rfl
  | predictions =>
    simp only [fetchOperation]
    rw [fetchPredictions_eq]
    obtain ⟨herr, hok⟩ := fetchStep_spec snap
      (fun d => { snap with predictions := d }) (apiFetch env "/predictions")
    refine ⟨herr, fun d hd => ⟨?_, ?_⟩⟩
    · rw [hok d hd]
      rfl
    · intro w' hw'
      rw [hok d hd]
      cases w' <;> first | exact absurd rfl hw' | rfl
  | velocity =>
    simp only [fetchOperation]
    rw [fetchSpendingVelocity_eq]
    obtain ⟨herr, hok⟩ := fetchStep_spec snap (fun d => { snap with velocity := d })
      (apiFetch env "/velocity")
    refine ⟨herr, fun d hd => ⟨?_, ?_⟩⟩
    · rw [hok d hd]
      rfl
    · intro w' hw'
      rw [hok d hd]
      cases w' <;> first | exact absurd rfl hw' | rfl
  | forecast =>
    simp only [fetchOperation]
    rw [fetchForecast_eq]
    obtain ⟨herr, hok⟩ := fetchStep_spec snap (fun d => { snap with forecast := d })
      (apiFetch env "/forecast")
    refine ⟨herr, fun d hd => ⟨?_, ?_⟩⟩
    · rw [hok d hd]
      rfl
    · intro w' hw'
      rw [hok d hd]
      cases w' <;> first | exact absurd rfl hw' | rfl

/-- A credential store with a token and a network that answers every
endpoint with a successful enveloped payload. -/
def exEnvOk : ApiEnv :=
  ⟨some "token-1", fun _ => ⟨true, 200, "OK", .obj [("data", .num (some 5))]⟩⟩

/-- Witness for C5: a successful trends fetch sets the trends slot and
leaves the forecast slot untouched. -/
theorem c5_slot_last_good_value_witness :
    slotOf (fetchOperation .trends exEnvOk "monthly" 6 initialAnalyticsData).2.1
        .trends = .num (some 5)
    ∧ slotOf (fetchOperation .trends exEnvOk "monthly" 6 initialAnalyticsData).2.1
        .forecast = slotOf initialAnalyticsData .forecast :=
  ⟨((c5_slot_last_good_value .trends exEnvOk "monthly" 6 initialAnalyticsData).2
      (.num (some 5)) rfl).1,
   ((c5_slot_last_good_value .trends exEnvOk "monthly" 6 initialAnalyticsData).2
      (.num (some 5)) rfl).2 .forecast (fun h => nomatch h)⟩

/-- C6: with no bearer token in the credential store every fetch
operation rejects with the missing-credential error before any network
request is issued (the request log is empty); in particular
fetchSpendingTrends with period monthly and a six month window rejects
that way and leaves the cache unchanged. -/
theorem c6_no_token_rejects_before_network (env : ApiEnv)
    (h : env.authToken = none) (endpoint : String) (snap : AnalyticsData) :
    apiFetch env endpoint = ([], .error AuthError)
    ∧ fetchSpendingTrends env snap "monthly" 6 = ([], snap, .error AuthError) := by
  have hapi : ∀ ep, apiFetch env ep = ([], .error AuthError) := by
    intro ep
    unfold apiFetch
    rw [h]
  refine ⟨hapi endpoint, ?_⟩
  rw [fetchSpendingTrends_eq, hapi _]
  rfl

/-- A credential store without a token. -/
def exEnvNoToken : ApiEnv :=
  ⟨none, fun _ => ⟨true, 200, "OK", .obj [("data", .arr [])]⟩⟩

/-- Witness for C6 at the concrete tokenless environment. -/
theorem c6_no_token_rejects_before_network_witness :
    apiFetch exEnvNoToken "/velocity" = ([], .error AuthError)
    ∧ fetchSpendingTrends exEnvNoToken initialAnalyticsData "monthly" 6
        = ([], initialAnalyticsData, .error AuthError) :=
  ⟨(c6_no_token_rejects_before_network exEnvNoToken rfl "/velocity"
      initialAnalyticsData).1,
   (c6_no_token_rejects_before_network exEnvNoToken rfl "/velocity"
      initialAnalyticsData).2⟩

/-- C7: the presentability predicate rejects null, undefined, the empty
array and the empty object, and accepts every one-element array and
every object with at least one key. -/
theorem c7_isValidData_spec :
    isValidData .null = false
    ∧ isValidData .undefined = false
    ∧ isValidData (.arr []) = false
    ∧ isValidData (.obj []) = false
    ∧ (∀ x : JSVal, isValidData (.arr [x]) = true)
    ∧ ∀ (k : String) (v : JSVal) (kvs : List (String × JSVal)),
        isValidData (.obj ((k, v) :: kvs)) = true := by
  refine ⟨rfl, rfl, rfl, rfl, fun x => rfl, fun k v kvs => ?_⟩
  simp [isValidData, truthy, jsKeys]

/-- C8: every category identifier outside the closed seven-element set
falls back to the default color and the default icon; the lookups never
fail and never return nothing. -/
theorem c8_unknown_category_defaults (c : String)
    (h : c ∉ ["food", "transport", "entertainment", "utilities", "healthcare",
        "shopping", "other"]) :
    categoryColor c = "#999" ∧ categoryIcon c = "📋" := by
  simp only [List.mem_cons, List.not_mem_nil, or_false, not_or] at h
  obtain ⟨h1, h2, h3, h4, h5, h6, h7⟩ := h
  have b1 : (c == "food") = false := beq_eq_false_iff_ne.mpr h1
  have b2 : (c == "transport") = false := beq_eq_false_iff_ne.mpr h2
  have b3 : (c == "entertainment") = false := beq_eq_false_iff_ne.mpr h3
  have b4 : (c == "utilities") = false := beq_eq_false_iff_ne.mpr h4
  have b5 : (c == "healthcare") = false := beq_eq_false_iff_ne.mpr h5
  have b6 : (c == "shopping") = false := beq_eq_false_iff_ne.mpr h6
  have b7 : (c == "other") = false := beq_eq_false_iff_ne.mpr h7
  constructor <;>
    simp [categoryColor, categoryIcon, getCategoryColors, getCategoryIcons,
      List.lookup, b1, b2, b3, b4, b5, b6, b7]

/-- Witness for C8 at a concrete unknown category. -/
theorem c8_unknown_category_defaults_witness :
    categoryColor "travel" = "#999" ∧ categoryIcon "travel" = "📋" :=
  ⟨(c8_unknown_category_defaults "travel" (by decide)).1,
   (c8_unknown_category_defaults "travel" (by decide)).2⟩

theorem min_div_hundred (x : ℚ) : min 100 (x * 100) / 100 = min 1 x := by
  rcases le_total (x * 100) 100 with hle | hle
  · rw [min_eq_right hle, min_eq_right (by linarith)]
    rw [mul_div_assoc]
    norm_num
  · rw [min_eq_left hle, min_eq_left (by linarith)]
    norm_num

/-- C9: whenever the velocity payload carries a numeric dayOfMonth q,
the rendered progress indicator holds the percentage
min(100, (q / 30) * 100), whose fraction form is exactly
min(1, q / 30). -/
theorem c9_velocity_progress_fraction (q : ℚ) (v : JSVal)
    (h : getField v "dayOfMonth" = .ok (.num (some q))) :
    ∃ cs da pm dr p, renderVelocityWidgetContent v
        = .ok (.velocityWidget (.num (some q)) cs da pm dr (some p))
      ∧ p = min 100 (q / 30 * 100)
      ∧ p / 100 = min 1 (q / 30) := by
  have h30 : ((30 : ℚ)) ≠ 0 := by norm_num
  have hprog : velocityProgressPercent (.num (some q))
      = some (min 100 (q / 30 * 100)) := by
    simp [velocityProgressPercent, toNumber, jsDiv, jsMul, mathMin, h30]
  cases v with
  | null => simp [getField] at h
  | undefined => simp [getField] at h
  | bool b => simp [getField] at h
  | num n => simp [getField] at h
  | str s => simp [getField] at h
  | arr l => simp [getField] at h
  | obj fields =>
    simp only [getField, Except.ok.injEq] at h
    refine ⟨(fields.lookup "currentSpent").getD .undefined,
        (fields.lookup "dailyAverage").getD .undefined,
        (fields.lookup "projectedMonthEnd").getD .undefined,
        (fields.lookup "daysRemaining").getD .undefined,
        min 100 (q / 30 * 100), ?_, rfl, min_div_hundred (q / 30)⟩
    unfold renderVelocityWidgetContent
    simp only [getField, Bind.bind, Except.bind]
    rw [h, hprog]

/-- The velocity payload of the testable-properties scenario. -/
def velocityScenarioPayload : JSVal :=
  .obj [("dayOfMonth", .num (some 15)),
        ("currentSpent", .num (some 500)),
        ("dailyAverage", .num (some (333 / 10))),
        ("projectedMonthEnd", .num (some 1000)),
        ("daysRemaining", .num (some 15))]

/-- Witness for C9: the scenario payload with dayOfMonth 15 renders a
progress fraction of one half. -/
theorem c9_velocity_progress_fraction_witness :
    (∃ cs da pm dr p, renderVelocityWidgetContent velocityScenarioPayload
        = .ok (.velocityWidget (.num (some 15)) cs da pm dr (some p))
      ∧ p = min 100 ((15 : ℚ) / 30 * 100)
      ∧ p / 100 = min 1 ((15 : ℚ) / 30))
    ∧ min 1 ((15 : ℚ) / 30) = 1 / 2 :=
  ⟨c9_velocity_progress_fraction 15 velocityScenarioPayload rfl, by
    rw [min_eq_right (by norm_num : ((15 : ℚ) / 30) ≤ 1)]
    norm_num⟩

/-- C10: capitalizeFirst is total on strings; the empty string maps to
the empty string, a non-empty string has exactly its first character
uppercased with the rest unchanged, and a null or undefined argument
makes the call throw a TypeError instead of returning a value. -/
theorem c10_capitalizeFirst_totality :
    capitalizeFirst "" = ""
    ∧ (∀ (c : Char) (cs : List Char),
        capitalizeFirst (String.mk (c :: cs)) = String.mk (c.toUpper :: cs))
    ∧ capitalizeFirstJS .null = .error (.typeError "charAt is not a function")
    ∧ capitalizeFirstJS .undefined
        = .error (.typeError "charAt is not a function") := by
  refine ⟨rfl, fun c cs => ?_, rfl, rfl⟩
  rfl

end ExpenseFlow
